import Mathlib

/-!
Verification development for the adaired-backend2 coupon / checkout / payment
reconciliation core.

The definitions below are shallow embeddings of the TypeScript source:

* `src/controllers/coupon.controller.ts` — `validateDiscountVsMinOrder`,
  `calculateDiscount`, `applyCoupon`, `recordCouponUsage`;
* `src/controllers/order.controller.ts` — `getCurrencyFromRegion`,
  `getExchangeRate`, `createOrder`, `stripeWebhook` (both the
  `checkout.session.completed` and `checkout.session.expired` branches);
* `src/controllers/invoice.controller.ts` — `updateInvoicePaymentStatus`;
* `src/models/invoice.model.ts` — the declared invoice status enum.

Money amounts are modelled as rationals (`ℚ`); JavaScript `Math.round`,
`Math.min`, `Math.max` become their exact rational counterparts.  Mongo
documents become Lean structures, collections become lists, and the mongoose
`findOne` / `findOneAndUpdate` calls become `List.find?` together with a
first-match update (`updateFirst` below).  The mongoose "Infinity" /
`null` default sentinels for optional numeric limits are modelled as
`Option` values, and JavaScript truthiness tests (`x || d`, `!x`) are
modelled by the `orQ` / `orZ` / `qTruthy` helpers (falsy ⟷ `none` or `0`).
Thrown `CustomError`s become `Except` errors (`AppError` below).
-/

/-- Errors thrown as `CustomError`s by the coupon / order controllers.
Each constructor corresponds to one `throw new CustomError(...)` site:
* `flatExceedsMinOrder` — "Discount value … cannot exceed the minimum order
  amount … for a flat discount coupon" (400);
* `couponNotFound` — "Invalid or expired coupon" (404);
* `limitReached` — "Coupon … has reached its usage limit" (400);
* `perUserLimitReached` — "You've reached the usage limit for coupon …" (400);
* `noQualifyingProducts` — "No qualifying products found for coupon …" (400);
* `noQualifying100` — "… requires items with ≤ … words" / "No items qualify…" (400);
* `singleItemOnly` — "… applies to single-item purchases only …" (400);
* `minQuantityNotMet` — "Minimum quantity of … required …" (400);
* `belowMinimum` — "Minimum order amount not met" (400);
* `cartEmpty` — `res.status(400) "Cart is empty."` in `createOrder`;
* `geoLookupFailed` / `rateLookupFailed` — the `CustomError(500, error.message)`
  rethrown from the catch blocks of `getCurrencyFromRegion` / `getExchangeRate`. -/
inductive AppError where
  | flatExceedsMinOrder
  | couponNotFound
  | limitReached
  | perUserLimitReached
  | noQualifyingProducts
  | noQualifying100
  | singleItemOnly
  | minQuantityNotMet
  | belowMinimum
  | cartEmpty
  | geoLookupFailed (msg : String)
  | rateLookupFailed (msg : String)
deriving DecidableEq, Repr

/-- One entry of a coupon's `userUsage` array (`coupon.model.ts`). -/
structure UserUsage where
  userId : Nat
  usageCount : Nat
deriving DecidableEq, Repr

/-- The `couponApplicableOn` enum of `coupon.model.ts`:
`["allProducts", "specificProducts", "productCategories"]`. -/
inductive ApplicableOn where
  | allProducts
  | specificProducts
  | productCategories
deriving DecidableEq, Repr

/-- The `couponType` enum of `coupon.model.ts`: `["amountBased", "quantityBased"]`. -/
inductive CouponType where
  | amountBased
  | quantityBased
deriving DecidableEq, Repr

/-- The `discountType` enum of `coupon.model.ts`: `["percentage", "flat"]`. -/
inductive DiscountType where
  | percentage
  | flat
deriving DecidableEq, Repr

/-- A Coupon document (`coupon.model.ts`).  `id` stands for the Mongo `_id`;
product / category ObjectIds are modelled as `Nat`.  The numeric limits whose
mongoose defaults are `Infinity` or `null` (`maxDiscountAmount`,
`maxWordCount`, `usageLimitPerUser`, `totalUsageLimit`) and the optional
`minOrderAmount` / `minQuantity` are `Option`s, `none` meaning
"absent / Infinity sentinel" (JavaScript-falsy). -/
structure Coupon where
  id : Nat
  couponApplicableOn : ApplicableOn
  couponType : CouponType
  discountType : DiscountType
  discountValue : ℚ
  minOrderAmount : Option ℚ
  maxDiscountAmount : Option ℚ
  specificProducts : List Nat
  productCategories : List Nat
  minQuantity : Option Int
  maxWordCount : Option ℚ
  usageLimitPerUser : Option Nat
  totalUsageLimit : Option Nat
  usedCount : Nat
  userUsage : List UserUsage
deriving DecidableEq, Repr

/-- One populated cart line (`CartProduct` in the cart types): the product's
`_id` and `category`, the `quantity`, `wordCount` and the line's `totalPrice`. -/
structure CartItem where
  productId : Nat
  categoryId : Nat
  quantity : Int
  wordCount : ℚ
  totalPrice : ℚ
deriving DecidableEq, Repr

/-- The cart snapshot handed to `calculateDiscount` (`cartData` argument). -/
structure CartData where
  products : List CartItem
  totalPrice : ℚ
  totalQuantity : Int
deriving DecidableEq, Repr

/-- JavaScript truthiness of an optional number: `null`/`undefined` and `0`
are falsy. -/
def qTruthy (x : Option ℚ) : Bool :=
  match x with
  | none => false
  | some v => v ≠ 0

/-- JavaScript `x || d` for an optional rational `x`. -/
def orQ (x : Option ℚ) (d : ℚ) : ℚ :=
  match x with
  | none => d
  | some v => if v = 0 then d else v

/-- JavaScript `x || d` for an optional integer `x`. -/
def orZ (x : Option Int) (d : Int) : Int :=
  match x with
  | none => d
  | some v => if v = 0 then d else v

/-- Models `Math.min(discount, coupon.maxDiscountAmount || Infinity)`
(coupon.controller.ts lines 142 and 148): a `none` or `0` cap (falsy, or the
schema's `Infinity` default modelled as `none`) leaves the discount unchanged. -/
def capQ (d : ℚ) (cap : Option ℚ) : ℚ :=
  match cap with
  | none => d
  | some m => if m = 0 then d else min d m

/-- Source `validateDiscountVsMinOrder` (coupon.controller.ts lines 11-20):
a flat coupon with a truthy `minOrderAmount` must not have
`discountValue > minOrderAmount`. -/
def validateDiscountVsMinOrder (c : Coupon) : Except AppError Unit :=
  if qTruthy c.minOrderAmount ∧ c.discountType = DiscountType.flat then
    if c.discountValue > c.minOrderAmount.getD 0 then
      Except.error AppError.flatExceedsMinOrder
    else Except.ok ()
  else Except.ok ()

/-- The `eligibleProducts` filter of `calculateDiscount`
(coupon.controller.ts lines 51-68): restrict the cart lines by
`couponApplicableOn`. -/
def eligibleProducts (c : Coupon) (products : List CartItem) : List CartItem :=
  match c.couponApplicableOn with
  | ApplicableOn.specificProducts =>
      products.filter (fun p => c.specificProducts.any (fun sp => sp = p.productId))
  | ApplicableOn.productCategories =>
      products.filter (fun p => c.productCategories.any (fun cat => cat = p.categoryId))
  | ApplicableOn.allProducts => products

/-- The 100%-off word-count filter
(`!coupon.maxWordCount || product.wordCount <= coupon.maxWordCount`,
coupon.controller.ts lines 83-86). -/
def qualifies100 (c : Coupon) (p : CartItem) : Bool :=
  !(qTruthy c.maxWordCount) || decide (p.wordCount ≤ c.maxWordCount.getD 0)

/-- Models `qualifyingProducts.reduce((lowest, current) => current.totalPrice <
lowest.totalPrice ? current : lowest)` (coupon.controller.ts lines 97-99):
JavaScript `reduce` without an initial value seeds with the first element,
so on `[]` there is nothing to select (the source guards with a length
check first). -/
def selectLowest : List CartItem → Option CartItem
  | [] => none
  | h :: t =>
      some (t.foldl
        (fun lowest current =>
          if current.totalPrice < lowest.totalPrice then current else lowest) h)

/-- The sum of the eligible lines' totals
(`eligibleProducts.reduce((sum, p) => sum + p.totalPrice, 0)`,
coupon.controller.ts lines 133-136). -/
def eligibleTotal (c : Coupon) (cart : CartData) : ℚ :=
  ((eligibleProducts c cart.products).map (fun p => p.totalPrice)).sum

/-- The result record of `calculateDiscount`. -/
structure DiscountResult where
  discount : ℚ
  discountedTotal : ℚ
  appliedTo : List Nat
deriving DecidableEq, Repr

/-- Source `calculateDiscount` (coupon.controller.ts lines 23-158), branch for
branch:
1. `validateDiscountVsMinOrder`;
2. eligibility filter, failing when a restricting scope leaves no lines;
3. the 100%-off special case (percentage, value = 100): among eligible lines
   passing the word-count filter, pick the one with the lowest `totalPrice`
   (first wins on ties), require `quantity = 1`, discount that line's total —
   note: `discountedTotal = cartData.totalPrice - discount` here is NOT
   clamped at 0, and `maxDiscountAmount` is NOT applied;
4. `quantityBased` coupons need one eligible line with
   `quantity ≥ (minQuantity || 1)`;
5. percentage/flat amount: require `totalPrice ≥ (minOrderAmount || 0)`,
   compute the (capped) discount, and return
   `max(0, totalPrice - discount)`. -/
def calculateDiscount (c : Coupon) (cart : CartData) : Except AppError DiscountResult :=
  match validateDiscountVsMinOrder c with
  | Except.error e => Except.error e
  | Except.ok _ =>
    if (c.couponApplicableOn = ApplicableOn.specificProducts ∨
        c.couponApplicableOn = ApplicableOn.productCategories) ∧
        eligibleProducts c cart.products = [] then
      Except.error AppError.noQualifyingProducts
    else if c.discountType = DiscountType.percentage ∧ c.discountValue = 100 then
      match selectLowest ((eligibleProducts c cart.products).filter (qualifies100 c)) with
      | none => Except.error AppError.noQualifying100
      | some item =>
          if item.quantity ≠ 1 then Except.error AppError.singleItemOnly
          else Except.ok
            { discount := item.totalPrice
              discountedTotal := cart.totalPrice - item.totalPrice
              appliedTo := [item.productId] }
    else if c.couponType = CouponType.quantityBased ∧
        ¬ ((eligibleProducts c cart.products).any
            (fun p => p.quantity ≥ orZ c.minQuantity 1)) then
      Except.error AppError.minQuantityNotMet
    else
      match c.discountType with
      | DiscountType.percentage =>
          if cart.totalPrice < orQ c.minOrderAmount 0 then
            Except.error AppError.belowMinimum
          else Except.ok
            { discount := capQ (eligibleTotal c cart * c.discountValue / 100) c.maxDiscountAmount
              discountedTotal :=
                max 0 (cart.totalPrice -
                  capQ (eligibleTotal c cart * c.discountValue / 100) c.maxDiscountAmount)
              appliedTo := (eligibleProducts c cart.products).map (fun p => p.productId) }
      | DiscountType.flat =>
          if cart.totalPrice < orQ c.minOrderAmount 0 then
            Except.error AppError.belowMinimum
          else Except.ok
            { discount := capQ c.discountValue c.maxDiscountAmount
              discountedTotal :=
                max 0 (cart.totalPrice - capQ c.discountValue c.maxDiscountAmount)
              appliedTo := (eligibleProducts c cart.products).map (fun p => p.productId) }

/-- Models `coupon.usedCount >= coupon.totalUsageLimit` with the `Infinity` default
modelled as `none` (`usedCount ≥ ∞` is false). -/
def usedLimitReached (c : Coupon) : Bool :=
  match c.totalUsageLimit with
  | none => false
  | some l => c.usedCount ≥ l

/-- Models `userUsage && userUsage.usageCount >= coupon.usageLimitPerUser`
(coupon.controller.ts lines 198-207), with the `Infinity` default as `none`. -/
def perUserLimitReached (c : Coupon) (uid : Nat) : Bool :=
  match c.userUsage.find? (fun u => u.userId = uid) with
  | none => false
  | some u =>
      match c.usageLimitPerUser with
      | none => false
      | some l => u.usageCount ≥ l

/-- The result of `applyCoupon` (`message` field omitted — presentational only). -/
structure ApplyResult where
  coupon : Coupon
  discountUSD : ℚ
  finalPriceUSD : ℚ
  appliedTo : List Nat
deriving DecidableEq, Repr

/-- Source `applyCoupon` (coupon.controller.ts lines 161-256).  `found` is the
result of the `Coupon.findOne({code, status: "Active", …})` query (the
active / unexpired lookup is external to this model).  The source checks,
in order: coupon found; `usedCount ≥ totalUsageLimit` (first time);
`validateDiscountVsMinOrder`; the requesting user's per-user limit;
`usedCount ≥ totalUsageLimit` again (duplicated in the source); then calls
`calculateDiscount`.  Both usage-limit checks happen before any amount
computation. -/
def applyCoupon (found : Option Coupon) (cart : CartData) (uid : Nat) :
    Except AppError ApplyResult :=
  match found with
  | none => Except.error AppError.couponNotFound
  | some c =>
    if usedLimitReached c then Except.error AppError.limitReached
    else match validateDiscountVsMinOrder c with
    | Except.error e => Except.error e
    | Except.ok _ =>
      if perUserLimitReached c uid then Except.error AppError.perUserLimitReached
      else if usedLimitReached c then Except.error AppError.limitReached
      else match calculateDiscount c cart with
      | Except.error e => Except.error e
      | Except.ok r =>
          Except.ok
            { coupon := c
              discountUSD := r.discount
              finalPriceUSD := r.discountedTotal
              appliedTo := r.appliedTo }

/-- Increment the `usageCount` of the first `userUsage` entry for `uid`
(the source mutates the entry returned by `Array.prototype.find`). -/
def incrementFirstUsage (uid : Nat) : List UserUsage → List UserUsage
  | [] => []
  | u :: rest =>
      if u.userId = uid then { u with usageCount := u.usageCount + 1 } :: rest
      else u :: incrementFirstUsage uid rest

/-- Source `recordCouponUsage` (coupon.controller.ts lines 259-284) on an
already-fetched coupon: bump (or create) the user's `usageCount` entry and
unconditionally increment `usedCount` — there is no check against
`totalUsageLimit` here. -/
def recordCouponUsage (c : Coupon) (uid : Nat) : Coupon :=
  match c.userUsage.find? (fun u => u.userId = uid) with
  | some _ =>
      { c with
        userUsage := incrementFirstUsage uid c.userUsage
        usedCount := c.usedCount + 1 }
  | none =>
      { c with
        userUsage := c.userUsage ++ [{ userId := uid, usageCount := 1 }]
        usedCount := c.usedCount + 1 }

/-- The `usageCount` recorded for `uid` on coupon `c` (0 when absent). -/
def userUsageCountOf (c : Coupon) (uid : Nat) : Nat :=
  match c.userUsage.find? (fun u => u.userId = uid) with
  | none => 0
  | some u => u.usageCount

/-- Outcome of a best-effort remote lookup (`axios.get`): success with the
relevant payload, rejection with a value that is an `instanceof Error`
(which is what axios always throws), or rejection with a non-`Error` value. -/
inductive LookupOutcome (A : Type) where
  | success : A → LookupOutcome A
  | failureError : String → LookupOutcome A
  | failureNonError : LookupOutcome A
deriving DecidableEq, Repr

/-- Source `getCurrencyFromRegion` (order.controller.ts lines 32-45): on success,
"inr" iff the geo-IP lookup reports country "IN", else "usd".  In the catch
block, an `instanceof Error` rejection is RETHROWN as `CustomError(500)`;
the `return "usd"` fallback is reached only for non-`Error` rejections. -/
def getCurrencyFromRegion (geo : LookupOutcome String) : Except AppError String :=
  match geo with
  | LookupOutcome.success country =>
      Except.ok (if country = "IN" then "inr" else "usd")
  | LookupOutcome.failureError msg => Except.error (AppError.geoLookupFailed msg)
  | LookupOutcome.failureNonError => Except.ok "usd"

/-- Source `getExchangeRate` (order.controller.ts lines 48-62): 1 for "usd";
otherwise `response.data.rates[CUR] || 84` on success (a missing or zero
rate falls back to 84), and in the catch block an `instanceof Error`
rejection is RETHROWN as `CustomError(500)`; the `return 84 // Fallback rate`
line is reached only for non-`Error` rejections. -/
def getExchangeRate (currency : String) (rate : LookupOutcome (Option ℚ)) :
    Except AppError ℚ :=
  if currency = "usd" then Except.ok 1
  else
    match rate with
    | LookupOutcome.success r =>
        Except.ok (match r with
          | some v => if v = 0 then 84 else v
          | none => 84)
    | LookupOutcome.failureError msg => Except.error (AppError.rateLookupFailed msg)
    | LookupOutcome.failureNonError => Except.ok 84

/-- The fields of the Order document written by `createOrder`
(order.controller.ts lines 176-216; schema defaults from `orderModel`). -/
structure OrderData where
  orderNumber : String
  userId : Nat
  products : List CartItem
  totalQuantity : Int
  totalPrice : ℚ
  couponDiscount : ℚ
  finalPrice : ℚ
  couponId : Option Nat
  paymentId : Option String
  paymentUrl : Option String
  status : String
  paymentStatus : String
deriving DecidableEq, Repr

/-- What `createOrder` produced: the persisted order, whether a gateway
session was opened (`createStripeSession` called), whether the invoice was
created (`createInvoice`), whether the cart was cleared, and the
`redirectUrl` / `sessionId` fields of the 201 response. -/
structure CreateOrderResponse where
  order : OrderData
  sessionOpened : Bool
  invoiceCreated : Bool
  cartCleared : Bool
  redirectUrl : Option String
  sessionId : Option String
deriving DecidableEq, Repr

/-- Source `BASE_DOMAIN` (utils/globals.ts) — environment-dependent; modelled as the
production default. -/
def BASE_DOMAIN : String := "https://www.adaired.com"

/-- The zero-total confirmation redirect URL of `createOrder`
(order.controller.ts lines 232-234). -/
def confirmationUrl (orderNumber : String) : String :=
  BASE_DOMAIN ++ "/expert-content-solutions/order/order-confirmation/" ++ orderNumber

/-- Source `createOrder` (order.controller.ts lines 139-248).  External effects are
parameters: `geo` / `rate` are the remote-lookup outcomes, `found` is the
`Coupon.findOne` result for `couponCode`, and `gwSessionId` / `gwSessionUrl`
are the id/url the gateway would return if a session is opened.  Structure:
empty-cart check; currency resolution (its failure aborts the checkout via
the surrounding try/catch); coupon evaluation via `applyCoupon` when a code
is given; then the zero-total fast path (`finalPriceUSD === 0`: order saved
with `paymentStatus: "Paid"`, `paymentId`/`paymentUrl` null, no gateway
session) or the gateway path (`createStripeSession`, order saved
`"Unpaid"`/`"Pending"` with the session id/url).  In both paths the invoice
is created and the cart cleared, and the response carries `redirectUrl`
exactly when `finalPriceUSD === 0` and `sessionId` exactly otherwise. -/
def createOrder (userId : Nat) (couponCode : Option String) (cart : CartData)
    (geo : LookupOutcome String) (rate : LookupOutcome (Option ℚ))
    (found : Option Coupon) (orderNumber : String)
    (gwSessionId gwSessionUrl : String) : Except AppError CreateOrderResponse :=
  if cart.products = [] then Except.error AppError.cartEmpty
  else
    match getCurrencyFromRegion geo with
    | Except.error e => Except.error e
    | Except.ok currency =>
      match getExchangeRate currency rate with
      | Except.error e => Except.error e
      | Except.ok _exchangeRate =>
        match (match couponCode with
               | none => Except.ok (none, 0, cart.totalPrice)
               | some _ =>
                   match applyCoupon found cart userId with
                   | Except.error e => Except.error e
                   | Except.ok r =>
                       Except.ok (some r.coupon.id, r.discountUSD, r.finalPriceUSD) :
                 Except AppError (Option Nat × ℚ × ℚ)) with
        | Except.error e => Except.error e
        | Except.ok (couponId, discountUSD, finalPriceUSD) =>
          if finalPriceUSD = 0 then
            Except.ok
              { order :=
                  { orderNumber := orderNumber
                    userId := userId
                    products := cart.products
                    totalQuantity := cart.totalQuantity
                    totalPrice := cart.totalPrice
                    couponDiscount := discountUSD
                    finalPrice := finalPriceUSD
                    couponId := couponId
                    paymentId := none
                    paymentUrl := none
                    status := "Pending"
                    paymentStatus := "Paid" }
                sessionOpened := false
                invoiceCreated := true
                cartCleared := true
                redirectUrl := some (confirmationUrl orderNumber)
                sessionId := none }
          else
            Except.ok
              { order :=
                  { orderNumber := orderNumber
                    userId := userId
                    products := cart.products
                    totalQuantity := cart.totalQuantity
                    totalPrice := cart.totalPrice
                    couponDiscount := discountUSD
                    finalPrice := finalPriceUSD
                    couponId := couponId
                    paymentId := some gwSessionId
                    paymentUrl := some gwSessionUrl
                    status := "Pending"
                    paymentStatus := "Unpaid" }
                sessionOpened := true
                invoiceCreated := true
                cartCleared := true
                redirectUrl := none
                sessionId := some gwSessionId }

/-- The status written by `updateInvoicePaymentStatus`
(invoice.controller.ts lines 305-321): "Paid" ↦ "Paid", "Failed" ↦ "Failed",
"Refunded" ↦ "Refunded", anything else ↦ "Unpaid". -/
def syncedInvoiceStatus (paymentStatus : String) : String :=
  if paymentStatus = "Paid" then "Paid"
  else if paymentStatus = "Failed" then "Failed"
  else if paymentStatus = "Refunded" then "Refunded"
  else "Unpaid"

/-- The `status` enum declared by `InvoiceSchema` (invoice.model.ts lines
13-17).  Note that `Invoice.findByIdAndUpdate` in
`updateInvoicePaymentStatus` does not run mongoose validators (the default
for update queries), so this enum is not enforced on that write path. -/
def invoiceStatusEnum : List String := ["Unpaid", "Paid", "Overdue", "Cancelled"]

/-- An Order document as seen by the webhook reconciler. -/
structure OrderRec where
  orderId : Nat
  paymentId : Option String
  paymentStatus : String
  paymentUrl : Option String
deriving DecidableEq, Repr

/-- An Invoice document as seen by the webhook reconciler. -/
structure InvoiceRec where
  orderId : Nat
  status : String
deriving DecidableEq, Repr

/-- A user's cart as seen by the `checkout.session.expired` branch. -/
structure CartRec where
  userId : Nat
  products : List CartItem
deriving DecidableEq, Repr

/-- The database state touched by `stripeWebhook`: the Order, Invoice,
Coupon and Cart collections (coupons keyed by their `_id`). -/
structure DB where
  orders : List OrderRec
  invoices : List InvoiceRec
  coupons : List (Nat × Coupon)
  carts : List CartRec
deriving DecidableEq, Repr

/-- First-match in-place update: the list effect of a mongoose
`findOneAndUpdate` / "find then save" pair (Mongo updates the first
matching document). -/
def updateFirst (p : A → Bool) (f : A → A) : List A → List A
  | [] => []
  | x :: xs => if p x then f x :: xs else x :: updateFirst p f xs

/-- Source `updateInvoicePaymentStatus` (invoice.controller.ts lines 305-321) as a
state transformer: find the invoice by `orderId` and write
`syncedInvoiceStatus paymentStatus`; no-op when absent. -/
def updateInvoicePaymentStatusDb (db : DB) (orderId : Nat) (paymentStatus : String) : DB :=
  { db with
    invoices :=
      updateFirst (fun i => i.orderId = orderId)
        (fun i => { i with status := syncedInvoiceStatus paymentStatus })
        db.invoices }

/-- Source `recordCouponUsage` as a state transformer: `Coupon.findById` then the
increment of `recordCouponUsage`.  When the coupon is absent the source
throws a 404 after the order/invoice writes already happened; state-wise
nothing further changes, which is what the no-op branch models. -/
def recordCouponUsageDb (db : DB) (couponId : Nat) (uid : Nat) : DB :=
  { db with
    coupons :=
      updateFirst (fun e => e.1 = couponId)
        (fun e => (e.1, recordCouponUsage e.2 uid))
        db.coupons }

/-- The data of a `Stripe.Checkout.Session` carried by a webhook event:
its `id`, `payment_status`, and the `metadata.userId` / `metadata.couponId`
stamped at session creation (an empty `couponId` string is falsy ⟷ `none`). -/
structure StripeSession where
  id : String
  payment_status : String
  metadataUserId : Nat
  metadataCouponId : Option Nat
deriving DecidableEq, Repr

/-- A signature-verified webhook event (`stripe.webhooks.constructEvent`
succeeded — signature failure aborts the request before any DB access).
The `expired` constructor carries the id/url the gateway assigns to the
replacement session, which are external inputs to the handler. -/
inductive StripeEvent where
  | completed : StripeSession → StripeEvent
  | expired : StripeSession → String → String → StripeEvent
  | other : StripeEvent
deriving DecidableEq, Repr

/-- The `checkout.session.completed` branch of `stripeWebhook`
(order.controller.ts lines 276-307): if the gateway reports the session as
paid, `findOneAndUpdate` the order matching `paymentId = session.id` to
`paymentStatus: "Paid"`; when such an order exists, sync its invoice to
"Paid" and, when the session metadata carries a coupon id, record one
coupon usage for `metadata.userId`.  The order update is keyed ONLY on the
session id — there is no condition on the previous `paymentStatus`. -/
def handleCompleted (db : DB) (s : StripeSession) : DB :=
  if s.payment_status = "paid" then
    match db.orders.find? (fun o => o.paymentId = some s.id) with
    | none => db
    | some ord =>
        let db1 : DB :=
          { db with
            orders :=
              updateFirst (fun o => o.paymentId = some s.id)
                (fun o => { o with paymentStatus := "Paid" })
                db.orders }
        let db2 := updateInvoicePaymentStatusDb db1 ord.orderId "Paid"
        match s.metadataCouponId with
        | some cid => recordCouponUsageDb db2 cid s.metadataUserId
        | none => db2
  else db

/-- The `checkout.session.expired` branch of `stripeWebhook`
(order.controller.ts lines 309-355): set the matching order to
`paymentStatus: "Unpaid"`, sync its invoice, and — when the user's cart is
non-empty — open a replacement gateway session and overwrite the order's
`paymentId` / `paymentUrl` with the new session's id/url (found again by
the OLD session id). -/
def handleExpired (db : DB) (s : StripeSession) (newSessionId newSessionUrl : String) : DB :=
  match db.orders.find? (fun o => o.paymentId = some s.id) with
  | none => db
  | some ord =>
      let db1 : DB :=
        { db with
          orders :=
            updateFirst (fun o => o.paymentId = some s.id)
              (fun o => { o with paymentStatus := "Unpaid" })
              db.orders }
      let db2 := updateInvoicePaymentStatusDb db1 ord.orderId "Unpaid"
      match db2.carts.find? (fun c => c.userId = s.metadataUserId) with
      | none => db2
      | some cart =>
          if cart.products.length > 0 then
            { db2 with
              orders :=
                updateFirst (fun o => o.paymentId = some s.id)
                  (fun o => { o with
                    paymentUrl := some newSessionUrl
                    paymentId := some newSessionId })
                  db2.orders }
          else db2

/-- The event dispatch of `stripeWebhook` (order.controller.ts lines
275-358); unrecognized event types are acknowledged and ignored. -/
def stripeWebhookEvent (db : DB) : StripeEvent → DB
  | StripeEvent.completed s => handleCompleted db s
  | StripeEvent.expired s newId newUrl => handleExpired db s newId newUrl
  | StripeEvent.other => db

/-- Deliver the same webhook event `n` times in sequence. -/
def deliverN (db : DB) (e : StripeEvent) : Nat → DB
  | 0 => db
  | n + 1 => deliverN (stripeWebhookEvent db e) e n

/-- The `usedCount` of coupon `cid` in the database (`none` when absent). -/
def usedCountOf (db : DB) (cid : Nat) : Option Nat :=
  (db.coupons.find? (fun e => e.1 = cid)).map (fun e => e.2.usedCount)

/-- The per-user `usageCount` of coupon `cid` for `uid` (`none` when the
coupon is absent). -/
def couponUserCountOf (db : DB) (cid : Nat) (uid : Nat) : Option Nat :=
  (db.coupons.find? (fun e => e.1 = cid)).map (fun e => userUsageCountOf e.2 uid)

/-- The `paymentStatus` of the (first) order holding gateway session `sid`. -/
def orderStatusBySession (db : DB) (sid : String) : Option String :=
  (db.orders.find? (fun o => o.paymentId = some sid)).map (fun o => o.paymentStatus)

/-- JavaScript `Math.round`: round half towards positive infinity. -/
def jsRound (x : ℚ) : ℤ := ⌊x + 1 / 2⌋

/-- One `line_items` entry sent to the gateway. -/
structure GatewayLineItem where
  currency : String
  unitAmountCents : ℤ
  quantity : Int
deriving DecidableEq, Repr

/-- The parameters of a `stripe.checkout.sessions.create` call. -/
structure GatewaySessionSpec where
  lineItems : List GatewayLineItem
  discounts : List ℤ
deriving DecidableEq, Repr

/-- The replacement session opened by the `checkout.session.expired` branch
(order.controller.ts lines 324-343): every cart line is priced
`unit_amount: Math.round(product.totalPrice * 100)` in currency `"usd"`
with `quantity: product.quantity`, and no `discounts` field is attached —
the coupon discount, the order's `finalPrice` and the originally resolved
currency play no part (the function only reads the cart lines). -/
def expiredReplacementSession (products : List CartItem) : GatewaySessionSpec :=
  { lineItems :=
      products.map (fun p =>
        { currency := "usd"
          unitAmountCents := jsRound (p.totalPrice * 100)
          quantity := p.quantity })
    discounts := [] }

/-- Total charge of a gateway session in minor units (cents). -/
def sessionTotalCents (s : GatewaySessionSpec) : ℤ :=
  (s.lineItems.map (fun li => li.unitAmountCents * li.quantity)).sum

/-! ### Generic lemmas about first-match updates and the evaluator helpers -/

/-- When the first match survives the update, `find?` returns the updated
document. -/
theorem find?_updateFirst_same {A : Type} {p : A → Bool} {f : A → A} :
    ∀ {l : List A} {x : A}, l.find? p = some x → p (f x) = true →
      (updateFirst p f l).find? p = some (f x) := by
  intro l
  induction l with
  | nil => intro x hx _; simp [List.find?] at hx
  | cons a t ih =>
      intro x hx hfx
      by_cases hpa : p a
      · rw [List.find?_cons_of_pos _ hpa] at hx
        injection hx with hx
        subst hx
        simp [updateFirst, hpa, List.find?_cons_of_pos _ hfx]
      · rw [List.find?_cons_of_neg _ hpa] at hx
        simp only [updateFirst, if_neg hpa]
        rw [List.find?_cons_of_neg _ hpa]
        exact ih hx hfx

/-- When the unique match stops matching after the update, nothing matches
any more. -/
theorem find?_updateFirst_none {A : Type} {p : A → Bool} {f : A → A} :
    ∀ {l : List A} {x : A}, l.find? p = some x → p (f x) = false →
      l.countP p = 1 → (updateFirst p f l).find? p = none := by
  intro l
  induction l with
  | nil => intro x hx _ _; simp [List.find?] at hx
  | cons a t ih =>
      intro x hx hfx hcount
      by_cases hpa : p a
      · rw [List.find?_cons_of_pos _ hpa] at hx
        injection hx with hx
        subst hx
        rw [List.countP_cons_of_pos _ _ hpa] at hcount
        have ht : t.countP p = 0 := by omega
        simp only [updateFirst, if_pos hpa]
        rw [List.find?_cons_of_neg _ (by simp [hfx])]
        exact List.find?_eq_none.mpr (fun y hy => by
          have := List.countP_eq_zero.mp ht y hy
          simpa using this)
      · rw [List.find?_cons_of_neg _ hpa] at hx
        rw [List.countP_cons_of_neg _ _ hpa] at hcount
        simp only [updateFirst, if_neg hpa]
        rw [List.find?_cons_of_neg _ hpa]
        exact ih hx hfx hcount

/-- If no element of the list satisfies `q` but the updated first `p`-match
does, `find? q` returns exactly that updated document. -/
theorem find?_updateFirst_other {A : Type} {p q : A → Bool} {f : A → A} :
    ∀ {l : List A} {x : A}, (∀ y ∈ l, q y = false) → l.find? p = some x →
      q (f x) = true → (updateFirst p f l).find? q = some (f x) := by
  intro l
  induction l with
  | nil => intro x _ hx _; simp [List.find?] at hx
  | cons a t ih =>
      intro x hq hx hfx
      by_cases hpa : p a
      · rw [List.find?_cons_of_pos _ hpa] at hx
        injection hx with hx
        subst hx
        simp [updateFirst, hpa, List.find?_cons_of_pos _ hfx]
      · rw [List.find?_cons_of_neg _ hpa] at hx
        simp only [updateFirst, if_neg hpa]
        have hqa : ¬ q a = true := by
          simp [hq a (by simp)]
        rw [List.find?_cons_of_neg _ hqa]
        exact ih (fun y hy => hq y (by simp [hy])) hx hfx

/-- An update that does not change `p`-membership preserves the `p`-count. -/
theorem countP_updateFirst {A : Type} (p : A → Bool) (f : A → A)
    (hpres : ∀ y, p (f y) = p y) :
    ∀ l : List A, (updateFirst p f l).countP p = l.countP p := by
  intro l
  induction l with
  | nil => rfl
  | cons a t ih =>
      by_cases hpa : p a
      · simp only [updateFirst, if_pos hpa]
        rw [List.countP_cons_of_pos _ _ (by rw [hpres]; exact hpa),
          List.countP_cons_of_pos _ _ hpa]
      · simp only [updateFirst, if_neg hpa]
        rw [List.countP_cons_of_neg _ _ hpa, List.countP_cons_of_neg _ _ hpa, ih]

/-- An update that does not change `q` keeps a `q`-free list `q`-free. -/
theorem forall_updateFirst {A : Type} (p q : A → Bool) (f : A → A)
    (hpres : ∀ y, q (f y) = q y) :
    ∀ l : List A, (∀ y ∈ l, q y = false) →
      ∀ y ∈ updateFirst p f l, q y = false := by
  intro l
  induction l with
  | nil => intro _ y hy; simp [updateFirst] at hy
  | cons a t ih =>
      intro hq y hy
      by_cases hpa : p a
      · simp only [updateFirst, if_pos hpa] at hy
        rcases List.mem_cons.mp hy with h | h
        · subst h; rw [hpres]; exact hq a (by simp)
        · exact hq y (by simp [h])
      · simp only [updateFirst, if_neg hpa] at hy
        rcases List.mem_cons.mp hy with h | h
        · subst h; exact hq y (by simp)
        · exact ih (fun z hz => hq z (by simp [hz])) y h

/-- Lemma: `recordCouponUsage` always bumps `usedCount` by exactly one. -/
theorem recordCouponUsage_usedCount (c : Coupon) (uid : Nat) :
    (recordCouponUsage c uid).usedCount = c.usedCount + 1 := by
  unfold recordCouponUsage
  cases c.userUsage.find? (fun u => u.userId = uid) <;> rfl

/-- Lemma: `find?` skips a prefix with no matches. -/
theorem find?_append_of_none {A : Type} {p : A → Bool} :
    ∀ {l l' : List A}, l.find? p = none → (l ++ l').find? p = l'.find? p := by
  intro l
  induction l with
  | nil => intro l' _; rfl
  | cons a t ih =>
      intro l' h
      by_cases hpa : p a
      · rw [List.find?_cons_of_pos _ hpa] at h; exact absurd h (by simp)
      · rw [List.find?_cons_of_neg _ hpa] at h
        rw [List.cons_append, List.find?_cons_of_neg _ hpa]
        exact ih h

/-- Lemma: `incrementFirstUsage` turns the first entry found for `uid` into the
same entry with `usageCount + 1`. -/
theorem find?_incrementFirstUsage {uid : Nat} :
    ∀ {l : List UserUsage} {u : UserUsage},
      l.find? (fun v => v.userId = uid) = some u →
      (incrementFirstUsage uid l).find? (fun v => v.userId = uid) =
        some { u with usageCount := u.usageCount + 1 } := by
  intro l
  induction l with
  | nil => intro u hu; simp [List.find?] at hu
  | cons a t ih =>
      intro u hu
      by_cases hpa : a.userId = uid
      · rw [List.find?_cons_of_pos _ (by simp [hpa])] at hu
        injection hu with hu
        subst hu
        simp only [incrementFirstUsage, if_pos hpa]
        exact List.find?_cons_of_pos _ (by simp [hpa])
      · rw [List.find?_cons_of_neg _ (by simp [hpa])] at hu
        simp only [incrementFirstUsage, if_neg hpa]
        rw [List.find?_cons_of_neg _ (by simp [hpa])]
        exact ih hu

/-- Lemma: `recordCouponUsage` bumps the requesting user's recorded `usageCount`
by exactly one. -/
theorem userUsageCountOf_record (c : Coupon) (uid : Nat) :
    userUsageCountOf (recordCouponUsage c uid) uid = userUsageCountOf c uid + 1 := by
  unfold recordCouponUsage userUsageCountOf
  cases hu : c.userUsage.find? (fun u => u.userId = uid) with
  | none =>
      simp only [hu]
      rw [find?_append_of_none hu]
      simp [List.find?]
  | some u =>
      simp only [hu]
      rw [find?_incrementFirstUsage hu]

/-- The running "lowest" accumulator of the JavaScript `reduce` is either
the seed or one of the traversed elements. -/
theorem foldl_lowest_mem :
    ∀ (t : List CartItem) (acc : CartItem),
      (t.foldl (fun lowest current =>
        if current.totalPrice < lowest.totalPrice then current else lowest) acc) = acc ∨
      (t.foldl (fun lowest current =>
        if current.totalPrice < lowest.totalPrice then current else lowest) acc) ∈ t := by
  intro t
  induction t with
  | nil => intro acc; left; rfl
  | cons c t ih =>
      intro acc
      simp only [List.foldl_cons]
      rcases ih (if c.totalPrice < acc.totalPrice then c else acc) with h | h
      · rw [h]
        by_cases hc : c.totalPrice < acc.totalPrice
        · right; simp [hc]
        · left; simp [hc]
      · right; exact List.mem_cons_of_mem _ h

/-- The running "lowest" accumulator is no more expensive than the seed and
than every traversed element. -/
theorem foldl_lowest_le :
    ∀ (t : List CartItem) (acc : CartItem),
      (t.foldl (fun lowest current =>
        if current.totalPrice < lowest.totalPrice then current else lowest) acc).totalPrice ≤
        acc.totalPrice ∧
      ∀ y ∈ t,
        (t.foldl (fun lowest current =>
          if current.totalPrice < lowest.totalPrice then current else lowest) acc).totalPrice ≤
          y.totalPrice := by
  intro t
  induction t with
  | nil => intro acc; exact ⟨le_refl _, by simp⟩
  | cons c t ih =>
      intro acc
      simp only [List.foldl_cons]
      have step := ih (if c.totalPrice < acc.totalPrice then c else acc)
      have hacc : (if c.totalPrice < acc.totalPrice then c else acc).totalPrice ≤ acc.totalPrice := by
        by_cases hc : c.totalPrice < acc.totalPrice
        · simp [hc]; exact le_of_lt hc
        · simp [hc]
      have hc' : (if c.totalPrice < acc.totalPrice then c else acc).totalPrice ≤ c.totalPrice := by
        by_cases hc : c.totalPrice < acc.totalPrice
        · simp [hc]
        · simp [hc]; exact le_of_not_lt hc
      refine ⟨le_trans step.1 hacc, ?_⟩
      intro y hy
      rcases List.mem_cons.mp hy with h | h
      · subst h; exact le_trans step.1 hc'
      · exact step.2 y h

/-- The selected 100%-off line is a member of the qualifying list. -/
theorem selectLowest_mem {l : List CartItem} {x : CartItem}
    (h : selectLowest l = some x) : x ∈ l := by
  cases l with
  | nil => simp [selectLowest] at h
  | cons a t =>
      simp only [selectLowest] at h
      injection h with h
      rcases foldl_lowest_mem t a with h' | h'
      · rw [← h, h']; simp
      · rw [← h]; exact List.mem_cons_of_mem _ h'

/-- The selected 100%-off line has the lowest `totalPrice` of the
qualifying list. -/
theorem selectLowest_le {l : List CartItem} {x : CartItem}
    (h : selectLowest l = some x) : ∀ y ∈ l, x.totalPrice ≤ y.totalPrice := by
  cases l with
  | nil => simp [selectLowest] at h
  | cons a t =>
      simp only [selectLowest] at h
      injection h with h
      intro y hy
      rcases List.mem_cons.mp hy with h' | h'
      · rw [h', ← h]; exact (foldl_lowest_le t a).1
      · rw [← h]; exact (foldl_lowest_le t a).2 y h'

/-- Every eligible line is a line of the cart. -/
theorem mem_of_mem_eligible {c : Coupon} {products : List CartItem} {x : CartItem}
    (h : x ∈ eligibleProducts c products) : x ∈ products := by
  unfold eligibleProducts at h
  rcases hs : c.couponApplicableOn with _ | _ | _ <;> rw [hs] at h
  · exact h
  · exact List.mem_of_mem_filter h
  · exact List.mem_of_mem_filter h

/-! ### Concrete documents used by witnesses and counterexamples -/

/-- A flat $20 coupon (min order $50), totals limit 100, unused. -/
def exFlatCoupon : Coupon :=
  { id := 7
    couponApplicableOn := ApplicableOn.allProducts
    couponType := CouponType.amountBased
    discountType := DiscountType.flat
    discountValue := 20
    minOrderAmount := some 50
    maxDiscountAmount := none
    specificProducts := []
    productCategories := []
    minQuantity := none
    maxWordCount := none
    usageLimitPerUser := none
    totalUsageLimit := some 100
    usedCount := 0
    userUsage := [] }

/-- A 100%-off percentage coupon with a $5 `maxDiscountAmount` cap. -/
def exCappedHundredCoupon : Coupon :=
  { id := 1
    couponApplicableOn := ApplicableOn.allProducts
    couponType := CouponType.amountBased
    discountType := DiscountType.percentage
    discountValue := 100
    minOrderAmount := none
    maxDiscountAmount := some 5
    specificProducts := []
    productCategories := []
    minQuantity := none
    maxWordCount := none
    usageLimitPerUser := none
    totalUsageLimit := none
    usedCount := 0
    userUsage := [] }

/-- A coupon that has exactly reached its total usage limit. -/
def exExhaustedCoupon : Coupon :=
  { id := 2
    couponApplicableOn := ApplicableOn.allProducts
    couponType := CouponType.amountBased
    discountType := DiscountType.flat
    discountValue := 10
    minOrderAmount := some 50
    maxDiscountAmount := none
    specificProducts := []
    productCategories := []
    minQuantity := none
    maxWordCount := none
    usageLimitPerUser := none
    totalUsageLimit := some 1
    usedCount := 1
    userUsage := [] }

/-- A one-line cart: product 9 (category 1), quantity 1, line total $10. -/
def exTenDollarCart : CartData :=
  { products := [{ productId := 9, categoryId := 1, quantity := 1, wordCount := 0, totalPrice := 10 }]
    totalPrice := 10
    totalQuantity := 1 }

/-!
### C2 — fallback on lookup failure

The claim: a failure of the geo-IP currency lookup or of the exchange-rate
lookup never causes checkout to fail, the result being replaced by the
fallback ("usd" / constant 84).  In the source every axios rejection is an
`instanceof Error`, and the catch blocks RETHROW those as
`CustomError(500, …)` (order.controller.ts lines 39-42 and 56-59), which
the `createOrder` catch turns into a failed checkout; the `return "usd"`
and `return 84 // Fallback rate` lines are dead for `Error` rejections.
The code thus contradicts its own "Fallback rate" comment: status
`code_bug`.
-/

/-- C2: a geo-IP lookup failure (an `Error` rejection, which is every axios
failure) aborts the whole checkout with the rethrown 500 error instead of
falling back to "usd"; likewise the exchange-rate lookup for a non-"usd"
currency; only a non-`Error` rejection would reach the intended fallbacks. -/
theorem C2_lookup_failure_aborts_checkout :
    getCurrencyFromRegion (LookupOutcome.failureError "getaddrinfo ENOTFOUND ipinfo.io") =
      Except.error (AppError.geoLookupFailed "getaddrinfo ENOTFOUND ipinfo.io") ∧
    getExchangeRate "inr" (LookupOutcome.failureError "timeout of 10000ms exceeded") =
      Except.error (AppError.rateLookupFailed "timeout of 10000ms exceeded") ∧
    createOrder 1 none exTenDollarCart
      (LookupOutcome.failureError "getaddrinfo ENOTFOUND ipinfo.io")
      (LookupOutcome.success (some 84)) none "0110251200" "cs_a" "https://pay.example" =
      Except.error (AppError.geoLookupFailed "getaddrinfo ENOTFOUND ipinfo.io") ∧
    getCurrencyFromRegion LookupOutcome.failureNonError = Except.ok "usd" ∧
    getExchangeRate "inr" LookupOutcome.failureNonError = Except.ok 84 := by
  refine ⟨rfl, rfl, ?_, rfl, rfl⟩
  rfl

/-!
### C7 — invoice status set membership

The claim: every status the Reconciler's status-sync writes lies in
{Unpaid, Paid, Overdue, Cancelled} and is "Paid" exactly when the Order is
"Paid".  `updateInvoicePaymentStatus` maps "Failed" ↦ "Failed" and
"Refunded" ↦ "Refunded", both OUTSIDE the enum `InvoiceSchema` declares,
and `findByIdAndUpdate` does not run the enum validator, so the write goes
through: the controller contradicts its own schema — status `code_bug`.
(The "Paid iff Paid" half of the claim does hold.)
-/

/-- C7: the status-sync writes "Failed" and "Refunded", which are not
members of the invoice schema's declared status enum; the synced status is
"Paid" exactly when the order's `paymentStatus` is "Paid". -/
theorem C7_sync_writes_outside_invoice_enum :
    syncedInvoiceStatus "Failed" = "Failed" ∧ "Failed" ∉ invoiceStatusEnum ∧
    syncedInvoiceStatus "Refunded" = "Refunded" ∧ "Refunded" ∉ invoiceStatusEnum ∧
    ∀ p : String, (syncedInvoiceStatus p = "Paid" ↔ p = "Paid") := by
  refine ⟨rfl, by decide, rfl, by decide, ?_⟩
  intro p
  constructor
  · intro hp
    by_contra hne
    simp only [syncedInvoiceStatus, if_neg hne] at hp
    split at hp
    · exact absurd hp (by decide)
    · split at hp
      · exact absurd hp (by decide)
      · exact absurd hp (by decide)
  · intro hp
    simp [syncedInvoiceStatus, hp]

/-- C7 witness: the universally quantified half of the theorem applied at
the concrete payment status "Unpaid". -/
theorem C7_sync_writes_outside_invoice_enum_witness :
    syncedInvoiceStatus "Unpaid" = "Paid" ↔ "Unpaid" = "Paid" :=
  C7_sync_writes_outside_invoice_enum.2.2.2.2 "Unpaid"

/-!
### C3 — percentage discount bounds

The claim includes the 100%-off special case in "discount ≤
maxDiscountAmount whenever a cap is set", but that branch
(coupon.controller.ts lines 82-117) never applies `maxDiscountAmount`:
a $5-capped 100%-off coupon on a $10 line discounts the full $10.
-/

/-- C3 counterexample: the 100%-off special case ignores the
`maxDiscountAmount` cap — with cap $5 and a single $10 line the computed
discount is $10 > $5, refuting "discount ≤ maxDiscountAmount whenever a
maxDiscountAmount cap is set". -/
theorem C3_cap_ignored_counterexample :
    exCappedHundredCoupon.discountType = DiscountType.percentage ∧
    exCappedHundredCoupon.maxDiscountAmount = some 5 ∧
    calculateDiscount exCappedHundredCoupon exTenDollarCart =
      Except.ok { discount := 10, discountedTotal := 0, appliedTo := [9] } ∧
    ¬ ((10 : ℚ) ≤ 5) := by
  refine ⟨rfl, rfl, ?_, by norm_num⟩
  norm_num [calculateDiscount, validateDiscountVsMinOrder, qTruthy, eligibleProducts,
    qualifies100, selectLowest, exCappedHundredCoupon, exTenDollarCart]

/-!
### C4 — usedCount vs totalUsageLimit

The evaluator half of the claim holds: `applyCoupon` fails with the
limit-reached error as soon as `usedCount ≥ totalUsageLimit`, before any
amount computation (the check precedes the `calculateDiscount` call and
fires for every cart).  The preservation half fails: `recordCouponUsage`
increments `usedCount` unconditionally, so a webhook that completes after
the limit was reached (or a redelivered webhook, see C1) pushes
`usedCount` past `totalUsageLimit`.
-/

/-- C4 counterexample: on a coupon whose `usedCount` already equals its
`totalUsageLimit` (= 1), the Reconciler's usage recording yields
`usedCount = 2 > 1`, violating the claimed invariant
`usedCount ≤ totalUsageLimit`. -/
theorem C4_increment_exceeds_limit_counterexample :
    exExhaustedCoupon.usedCount = 1 ∧
    exExhaustedCoupon.totalUsageLimit = some 1 ∧
    (recordCouponUsage exExhaustedCoupon 3).usedCount = 2 ∧
    ¬ ((2 : Nat) ≤ 1) := by
  refine ⟨rfl, rfl, rfl, by decide⟩

/-- C4 (amended): the evaluator does fail with the limit-reached error
whenever `usedCount ≥ totalUsageLimit`, for every cart and user (the check
precedes amount computation), but `recordCouponUsage` increments
`usedCount` unconditionally — by exactly one on every call, with no
`totalUsageLimit` guard — so recording usage on a coupon at its limit
exceeds the limit. -/
theorem C4_limit_checked_in_evaluator_not_in_recorder
    (c : Coupon) (cart : CartData) (uid : Nat) :
    (usedLimitReached c = true →
      applyCoupon (some c) cart uid = Except.error AppError.limitReached) ∧
    (recordCouponUsage c uid).usedCount = c.usedCount + 1 := by
  constructor
  · intro h
    simp [applyCoupon, h]
  · exact recordCouponUsage_usedCount c uid

/-- C4 witness: the amended theorem applied to the exhausted coupon, a
concrete cart and user 3, with `usedCount ≥ totalUsageLimit` discharged by
evaluation. -/
theorem C4_limit_checked_in_evaluator_not_in_recorder_witness :
    applyCoupon (some exExhaustedCoupon) exTenDollarCart 3 =
      Except.error AppError.limitReached ∧
    (recordCouponUsage exExhaustedCoupon 3).usedCount = exExhaustedCoupon.usedCount + 1 :=
  ⟨(C4_limit_checked_in_evaluator_not_in_recorder exExhaustedCoupon exTenDollarCart 3).1
      (by rfl),
    (C4_limit_checked_in_evaluator_not_in_recorder exExhaustedCoupon exTenDollarCart 3).2⟩

/-!
### C6 — `discountedTotal = max(0, totalPrice − discount)`

The flat and percentage branches compute exactly
`Math.max(0, cartData.totalPrice - discount)`.  The 100%-off branch writes
the UNCLAMPED `cartData.totalPrice - discount`, but there the discount is
one eligible line's total, which cannot exceed the cart total on any cart
satisfying the CartSnapshot invariant (`totalPrice` = sum of the line
totals, line totals nonnegative) — so the equality holds on every
well-formed cart, in every branch.
-/

/-- A $100 single-line cart (product 5, category 2, quantity 1). -/
def exHundredCart : CartData :=
  { products := [{ productId := 5, categoryId := 2, quantity := 1, wordCount := 0, totalPrice := 100 }]
    totalPrice := 100
    totalQuantity := 1 }

/-- C6: on any cart satisfying the CartSnapshot invariant, every successful
evaluation (flat, percentage, or 100%-off) returns
`discountedTotal = max 0 (totalPrice − discount)`, hence
`discountedTotal ≥ 0`. -/
theorem C6_discounted_total_clamped (c : Coupon) (cart : CartData) (r : DiscountResult)
    (hsum : cart.totalPrice = (cart.products.map (fun p => p.totalPrice)).sum)
    (hpos : ∀ p ∈ cart.products, 0 ≤ p.totalPrice)
    (h : calculateDiscount c cart = Except.ok r) :
    r.discountedTotal = max 0 (cart.totalPrice - r.discount) ∧ 0 ≤ r.discountedTotal := by
  unfold calculateDiscount at h
  split at h
  · simp at h
  · split at h
    · simp at h
    · split at h
      · split at h
        · simp at h
        · rename_i item heq
          split at h
          · simp at h
          · rw [Except.ok.injEq] at h
            subst h
            have hmem : item ∈ (eligibleProducts c cart.products).filter (qualifies100 c) :=
              selectLowest_mem heq
            have hmem2 : item ∈ cart.products :=
              mem_of_mem_eligible (List.mem_of_mem_filter hmem)
            have hnn : ∀ y ∈ cart.products.map (fun p => p.totalPrice), 0 ≤ y := by
              intro y hy
              rcases List.mem_map.mp hy with ⟨p, hp, hpy⟩
              rw [← hpy]
              exact hpos p hp
            have hle : item.totalPrice ≤ cart.totalPrice := by
              rw [hsum]
              exact List.single_le_sum hnn _ (List.mem_map_of_mem _ hmem2)
            constructor
            · dsimp only
              rw [max_eq_right (sub_nonneg.mpr hle)]
            · exact sub_nonneg.mpr hle
      · split at h
        · simp at h
        · split at h
          · split at h
            · simp at h
            · rw [Except.ok.injEq] at h
              subst h
              exact ⟨rfl, le_max_left _ _⟩
          · split at h
            · simp at h
            · rw [Except.ok.injEq] at h
              subst h
              exact ⟨rfl, le_max_left _ _⟩

/-- C6 witness: the spec's own FLAT20 example — cart total $100, flat $20
coupon with `minOrderAmount` $50 — evaluates to discount $20, total $80,
and the theorem instance confirms `80 = max 0 (100 − 20)` and `0 ≤ 80`. -/
theorem C6_discounted_total_clamped_witness :
    (80 : ℚ) = max 0 ((100 : ℚ) - 20) ∧ (0 : ℚ) ≤ 80 := by
  have happ : calculateDiscount exFlatCoupon exHundredCart =
      Except.ok { discount := 20, discountedTotal := 80, appliedTo := [5] } := by
    norm_num [calculateDiscount, validateDiscountVsMinOrder, qTruthy, eligibleProducts,
      qualifies100, selectLowest, capQ, orQ, orZ, eligibleTotal, exFlatCoupon, exHundredCart]
  have := C6_discounted_total_clamped exFlatCoupon exHundredCart
    { discount := 20, discountedTotal := 80, appliedTo := [5] }
    (by norm_num [exHundredCart]) (by
      intro p hp
      simp only [exHundredCart, List.mem_singleton] at hp
      rw [hp]
      norm_num) happ
  simpa using this

/-- A 50%-off percentage coupon capped at $5. -/
def exHalfCoupon : Coupon :=
  { id := 4
    couponApplicableOn := ApplicableOn.allProducts
    couponType := CouponType.amountBased
    discountType := DiscountType.percentage
    discountValue := 50
    minOrderAmount := none
    maxDiscountAmount := some 5
    specificProducts := []
    productCategories := []
    minQuantity := none
    maxWordCount := none
    usageLimitPerUser := none
    totalUsageLimit := none
    usedCount := 0
    userUsage := [] }

/-- A $20 single-line cart (product 4, category 1, quantity 1). -/
def exTwentyCart : CartData :=
  { products := [{ productId := 4, categoryId := 1, quantity := 1, wordCount := 0, totalPrice := 20 }]
    totalPrice := 20
    totalQuantity := 1 }

/-- C3 (amended): for percentage coupons (with nonnegative line totals,
discount value and cap), every successful evaluation satisfies
`0 ≤ discount ≤ eligibleTotal * discountValue / 100`; the
`maxDiscountAmount` cap is honoured in the ordinary percentage branch
(`discountValue ≠ 100`), but the 100%-off special case ignores the cap
(see the counterexample), so the cap bound only holds for
`discountValue ≠ 100`. -/
theorem C3_percentage_discount_bounds (c : Coupon) (cart : CartData) (r : DiscountResult)
    (hdt : c.discountType = DiscountType.percentage)
    (hdv : 0 ≤ c.discountValue)
    (hpos : ∀ p ∈ cart.products, 0 ≤ p.totalPrice)
    (hcap : ∀ m, c.maxDiscountAmount = some m → 0 ≤ m)
    (h : calculateDiscount c cart = Except.ok r) :
    0 ≤ r.discount ∧
    r.discount ≤ eligibleTotal c cart * c.discountValue / 100 ∧
    (c.discountValue ≠ 100 →
      ∀ m, c.maxDiscountAmount = some m → m ≠ 0 → r.discount ≤ m) := by
  have heTnn : 0 ≤ eligibleTotal c cart := by
    apply List.sum_nonneg
    intro y hy
    rcases List.mem_map.mp hy with ⟨p, hp, hpy⟩
    rw [← hpy]
    exact hpos p (mem_of_mem_eligible hp)
  unfold calculateDiscount at h
  split at h
  · simp at h
  · split at h
    · simp at h
    · split at h
      · rename_i h100
        split at h
        · simp at h
        · rename_i item heq
          split at h
          · simp at h
          · rw [Except.ok.injEq] at h
            subst h
            have hmem : item ∈ (eligibleProducts c cart.products).filter (qualifies100 c) :=
              selectLowest_mem heq
            have hmemE : item ∈ eligibleProducts c cart.products :=
              List.mem_of_mem_filter hmem
            have hnn : ∀ y ∈ (eligibleProducts c cart.products).map (fun p => p.totalPrice),
                0 ≤ y := by
              intro y hy
              rcases List.mem_map.mp hy with ⟨p, hp, hpy⟩
              rw [← hpy]
              exact hpos p (mem_of_mem_eligible hp)
            have hleT : item.totalPrice ≤ eligibleTotal c cart :=
              List.single_le_sum hnn _ (List.mem_map_of_mem _ hmemE)
            refine ⟨hpos item (mem_of_mem_eligible hmemE), ?_, ?_⟩
            · dsimp only
              rw [h100.2]
              calc item.totalPrice ≤ eligibleTotal c cart := hleT
                _ = eligibleTotal c cart * 100 / 100 := by ring
            · intro hne
              exact absurd h100.2 hne
      · split at h
        · simp at h
        · split at h
          · split at h
            · simp at h
            · rw [Except.ok.injEq] at h
              subst h
              have hbase : 0 ≤ eligibleTotal c cart * c.discountValue / 100 :=
                div_nonneg (mul_nonneg heTnn hdv) (by norm_num)
              refine ⟨?_, ?_, ?_⟩
              · dsimp only
                unfold capQ
                split
                · exact hbase
                · rename_i m _
                  split
                  · exact hbase
                  · exact le_min hbase (hcap m (by assumption))
              · dsimp only
                unfold capQ
                split
                · exact le_refl _
                · split
                  · exact le_refl _
                  · exact min_le_left _ _
              · intro _ m hm hm0
                dsimp only
                unfold capQ
                simp only [hm, if_neg hm0]
                exact min_le_right _ _
          · rename_i heqdt
            rw [hdt] at heqdt
            exact absurd heqdt (by simp)

/-- C3 witness: a 50%-off coupon capped at $5 on a $20 cart — the theorem
instance yields discount $5 with `0 ≤ 5`, `5 ≤ 20·50/100` and `5 ≤ 5`. -/
theorem C3_percentage_discount_bounds_witness :
    (0 : ℚ) ≤ 5 ∧
    (5 : ℚ) ≤ eligibleTotal exHalfCoupon exTwentyCart * exHalfCoupon.discountValue / 100 ∧
    ((exHalfCoupon.discountValue ≠ 100 →
      ∀ m, exHalfCoupon.maxDiscountAmount = some m → m ≠ 0 → (5 : ℚ) ≤ m)) := by
  have happ : calculateDiscount exHalfCoupon exTwentyCart =
      Except.ok { discount := 5, discountedTotal := 15, appliedTo := [4] } := by
    norm_num [calculateDiscount, validateDiscountVsMinOrder, qTruthy, eligibleProducts,
      qualifies100, selectLowest, capQ, orQ, orZ, eligibleTotal, exHalfCoupon, exTwentyCart]
  have := C3_percentage_discount_bounds exHalfCoupon exTwentyCart
    { discount := 5, discountedTotal := 15, appliedTo := [4] }
    rfl (by norm_num [exHalfCoupon]) (by
      intro p hp
      simp only [exTwentyCart, List.mem_singleton] at hp
      rw [hp]
      norm_num) (by
      intro m hm
      simp only [exHalfCoupon, Option.some.injEq] at hm
      rw [← hm]
      norm_num) happ
  simpa using this

/-!
### C5 — the 100%-off special case
-/

/-- C5: for a percentage coupon of value 100: when no eligible line passes
the word-count filter the evaluation fails; otherwise the selected line is
a qualifying line of minimal `totalPrice`, evaluation fails with the
single-item error iff its quantity ≠ 1, and otherwise succeeds with the
discount equal to exactly that line's total and `appliedTo` that one item. -/
theorem C5_hundred_percent_selection (c : Coupon) (cart : CartData)
    (hdt : c.discountType = DiscountType.percentage)
    (hdv : c.discountValue = 100) :
    ((eligibleProducts c cart.products).filter (qualifies100 c) = [] →
      ∃ e, calculateDiscount c cart = Except.error e) ∧
    (∀ item,
      selectLowest ((eligibleProducts c cart.products).filter (qualifies100 c)) = some item →
      item ∈ (eligibleProducts c cart.products).filter (qualifies100 c) ∧
      (∀ q ∈ (eligibleProducts c cart.products).filter (qualifies100 c),
        item.totalPrice ≤ q.totalPrice) ∧
      (item.quantity ≠ 1 →
        calculateDiscount c cart = Except.error AppError.singleItemOnly) ∧
      (item.quantity = 1 →
        calculateDiscount c cart = Except.ok
          { discount := item.totalPrice
            discountedTotal := cart.totalPrice - item.totalPrice
            appliedTo := [item.productId] })) := by
  have hval : validateDiscountVsMinOrder c = Except.ok () := by
    unfold validateDiscountVsMinOrder
    rw [if_neg]
    rintro ⟨-, hflat⟩
    rw [hdt] at hflat
    exact DiscountType.noConfusion hflat
  constructor
  · intro hq
    by_cases hscope :
        (c.couponApplicableOn = ApplicableOn.specificProducts ∨
          c.couponApplicableOn = ApplicableOn.productCategories) ∧
          eligibleProducts c cart.products = []
    · refine ⟨AppError.noQualifyingProducts, ?_⟩
      unfold calculateDiscount
      rw [hval]
      dsimp only
      rw [if_pos hscope]
    · refine ⟨AppError.noQualifying100, ?_⟩
      unfold calculateDiscount
      rw [hval]
      dsimp only
      rw [if_neg hscope, if_pos ⟨hdt, hdv⟩, hq]
      rfl
  · intro item hsel
    have hscope :
        ¬ ((c.couponApplicableOn = ApplicableOn.specificProducts ∨
            c.couponApplicableOn = ApplicableOn.productCategories) ∧
            eligibleProducts c cart.products = []) := by
      rintro ⟨-, hnil⟩
      rw [hnil] at hsel
      simp [selectLowest] at hsel
    refine ⟨selectLowest_mem hsel, selectLowest_le hsel, ?_, ?_⟩
    · intro hq1
      unfold calculateDiscount
      rw [hval]
      dsimp only
      rw [if_neg hscope, if_pos ⟨hdt, hdv⟩, hsel]
      dsimp only
      rw [if_pos hq1]
    · intro hq1
      unfold calculateDiscount
      rw [hval]
      dsimp only
      rw [if_neg hscope, if_pos ⟨hdt, hdv⟩, hsel]
      dsimp only
      rw [if_neg (fun hcon => hcon hq1)]

/-- A plain 100%-off coupon: percentage, value 100, applicable to all
products, no word-count restriction and no cap. -/
def exHundredOffCoupon : Coupon :=
  { id := 9
    couponApplicableOn := ApplicableOn.allProducts
    couponType := CouponType.amountBased
    discountType := DiscountType.percentage
    discountValue := 100
    minOrderAmount := none
    maxDiscountAmount := none
    specificProducts := []
    productCategories := []
    minQuantity := none
    maxWordCount := none
    usageLimitPerUser := none
    totalUsageLimit := none
    usedCount := 0
    userUsage := [] }

/-- A $40 single-line cart (product 3, category 1, quantity 1). -/
def exFortyCart : CartData :=
  { products := [{ productId := 3, categoryId := 1, quantity := 1, wordCount := 0, totalPrice := 40 }]
    totalPrice := 40
    totalQuantity := 1 }

/-- C5 witness: the 100%-off coupon on the single-unit $40 line — the
selected item is the qualifying line and evaluation discounts exactly that
line's total. -/
theorem C5_hundred_percent_selection_witness :
    ({ productId := 3, categoryId := 1, quantity := 1, wordCount := 0, totalPrice := 40 } : CartItem) ∈
      (eligibleProducts exHundredOffCoupon exFortyCart.products).filter
        (qualifies100 exHundredOffCoupon) ∧
    calculateDiscount exHundredOffCoupon exFortyCart =
      Except.ok { discount := 40, discountedTotal := (40 : ℚ) - 40, appliedTo := [3] } := by
  have h := (C5_hundred_percent_selection exHundredOffCoupon exFortyCart rfl rfl).2
    { productId := 3, categoryId := 1, quantity := 1, wordCount := 0, totalPrice := 40 }
    (by rfl)
  exact ⟨h.1, h.2.2.2 rfl⟩

/-!
### C9 — zero-total fast path
-/

/-- C9: whenever `createOrder` succeeds with `finalPrice = 0`, the order is
persisted already Paid with null `paymentId`/`paymentUrl`, no gateway
session is opened, the invoice is still created, and the 201 response
carries the confirmation `redirectUrl` and no `sessionId`. -/
theorem C9_zero_total_fast_path
    (userId : Nat) (couponCode : Option String) (cart : CartData)
    (geo : LookupOutcome String) (rate : LookupOutcome (Option ℚ))
    (found : Option Coupon) (orderNumber gwId gwUrl : String)
    (resp : CreateOrderResponse)
    (h : createOrder userId couponCode cart geo rate found orderNumber gwId gwUrl =
      Except.ok resp)
    (h0 : resp.order.finalPrice = 0) :
    resp.order.paymentStatus = "Paid" ∧
    resp.order.paymentId = none ∧
    resp.order.paymentUrl = none ∧
    resp.sessionOpened = false ∧
    resp.invoiceCreated = true ∧
    resp.redirectUrl = some (confirmationUrl orderNumber) ∧
    resp.sessionId = none := by
  unfold createOrder at h
  split at h
  · simp at h
  · split at h
    · simp at h
    · split at h
      · simp at h
      · split at h
        · simp at h
        · split at h
          · rw [Except.ok.injEq] at h
            subst h
            exact ⟨rfl, rfl, rfl, rfl, rfl, rfl, rfl⟩
          · rename_i hfp
            rw [Except.ok.injEq] at h
            subst h
            exact absurd h0 hfp

/-- The response `createOrder` produces on the spec's zero-total example
(single $40 line, 100%-off coupon). -/
def exC9resp : CreateOrderResponse :=
  { order :=
      { orderNumber := "0110251230"
        userId := 1
        products := exFortyCart.products
        totalQuantity := 1
        totalPrice := 40
        couponDiscount := 40
        finalPrice := 0
        couponId := some 9
        paymentId := none
        paymentUrl := none
        status := "Pending"
        paymentStatus := "Paid" }
    sessionOpened := false
    invoiceCreated := true
    cartCleared := true
    redirectUrl := some (confirmationUrl "0110251230")
    sessionId := none }

/-- C9 witness: the spec's own example — $40 single-unit cart, 100%-off
coupon — checks out through the zero-total fast path. -/
theorem C9_zero_total_fast_path_witness :
    exC9resp.order.paymentStatus = "Paid" ∧
    exC9resp.order.paymentId = none ∧
    exC9resp.order.paymentUrl = none ∧
    exC9resp.sessionOpened = false ∧
    exC9resp.invoiceCreated = true ∧
    exC9resp.redirectUrl = some (confirmationUrl "0110251230") ∧
    exC9resp.sessionId = none := by
  have happ : createOrder 1 (some "WELCOME100") exFortyCart (LookupOutcome.success "US")
      (LookupOutcome.success (some 84)) (some exHundredOffCoupon) "0110251230"
      "cs_b" "https://pay.example/b" = Except.ok exC9resp := by
    norm_num [createOrder, getCurrencyFromRegion, getExchangeRate, applyCoupon,
      usedLimitReached, perUserLimitReached, validateDiscountVsMinOrder, qTruthy,
      calculateDiscount, eligibleProducts, qualifies100, selectLowest, capQ, orQ, orZ,
      exFortyCart, exHundredOffCoupon, exC9resp]
    rfl
  exact C9_zero_total_fast_path 1 (some "WELCOME100") exFortyCart
    (LookupOutcome.success "US") (LookupOutcome.success (some 84))
    (some exHundredOffCoupon) "0110251230" "cs_b" "https://pay.example/b" exC9resp happ rfl

/-!
### C10 — the replacement session reprices the raw cart in USD
-/

/-- C10: the replacement session opened after `checkout.session.expired`
charges every cart line `round(lineTotal·100)` cents in "usd" with the
line's quantity as multiplier and attaches no discount object, so (for
lines whose totals are exact cents) its total equals
`100 · Σ lineTotal·quantity` cents — the coupon discount, the order's
`finalPrice` and the originally resolved currency do not enter (the
construction reads only the cart lines). -/
theorem C10_expired_replacement_pricing (products : List CartItem)
    (hcents : ∀ p ∈ products, ∃ n : ℤ, p.totalPrice * 100 = (n : ℚ)) :
    (∀ li ∈ (expiredReplacementSession products).lineItems, li.currency = "usd") ∧
    (expiredReplacementSession products).discounts = [] ∧
    ((sessionTotalCents (expiredReplacementSession products) : ℚ) =
      100 * (products.map (fun p => p.totalPrice * (p.quantity : ℚ))).sum) := by
  refine ⟨?_, rfl, ?_⟩
  · intro li hli
    rcases List.mem_map.mp hli with ⟨p, _, hpeq⟩
    rw [← hpeq]
  · revert hcents
    induction products with
    | nil =>
        intro _
        simp [sessionTotalCents, expiredReplacementSession]
    | cons p ps ih =>
        intro hcents
        rcases hcents p (by simp) with ⟨n, hn⟩
        have hjs : jsRound (p.totalPrice * 100) = n := by
          unfold jsRound
          rw [hn, add_comm, Int.floor_add_int]
          norm_num
        have ih2 := ih (fun q hq => hcents q (by simp [hq]))
        have hdec : sessionTotalCents (expiredReplacementSession (p :: ps)) =
            jsRound (p.totalPrice * 100) * p.quantity +
              sessionTotalCents (expiredReplacementSession ps) := by
          simp [sessionTotalCents, expiredReplacementSession]
        rw [hdec, Int.cast_add, Int.cast_mul, hjs, ih2, List.map_cons, List.sum_cons, ← hn]
        ring

/-- A single $25 line with quantity 2, used by the C10 witness. -/
def exC10products : List CartItem :=
  [{ productId := 1, categoryId := 1, quantity := 2, wordCount := 0, totalPrice := 25 }]

/-- C10 witness: a single line of total $25 with quantity 2 prices at 2500
cents per unit, twice, totalling 5000 cents = 100 · (25 · 2). -/
theorem C10_expired_replacement_pricing_witness :
    (∀ li ∈ (expiredReplacementSession exC10products).lineItems, li.currency = "usd") ∧
    (expiredReplacementSession exC10products).discounts = [] ∧
    ((sessionTotalCents (expiredReplacementSession exC10products) : ℚ) =
      100 * (exC10products.map (fun p => p.totalPrice * (p.quantity : ℚ))).sum) :=
  C10_expired_replacement_pricing exC10products
    (by
      intro p hp
      simp only [exC10products, List.mem_singleton] at hp
      exact ⟨2500, by rw [hp]; norm_num⟩)

/-!
### C1 — webhook replay and coupon usage

`stripeWebhook`'s completed branch updates the order keyed ONLY on
`paymentId = session.id` with no condition on the previous `paymentStatus`,
and then calls `recordCouponUsage` whenever that (unconditional) update
found an order.  An already-Paid order still matches, so EVERY redelivery
of the same paid event increments the coupon counters again: the claimed
"exactly one increment, gated on the Unpaid→Paid transition" is false of
the code.  What does hold: the order reads "Paid" after every delivery,
and delivery N increments both counters for the N-th time.
-/

/-- One paid completed delivery: the matching order is set to "Paid" (and
still matches the same session id), and the metadata coupon receives one
usage recording. -/
theorem handleCompleted_step (db : DB) (s : StripeSession) (ord : OrderRec)
    (cid : Nat) (c : Coupon)
    (hord : db.orders.find? (fun o => o.paymentId = some s.id) = some ord)
    (hpaid : s.payment_status = "paid")
    (hcid : s.metadataCouponId = some cid)
    (hc : db.coupons.find? (fun e => e.1 = cid) = some (cid, c)) :
    (handleCompleted db s).orders.find? (fun o => o.paymentId = some s.id) =
      some { ord with paymentStatus := "Paid" } ∧
    (handleCompleted db s).coupons.find? (fun e => e.1 = cid) =
      some (cid, recordCouponUsage c s.metadataUserId) := by
  unfold handleCompleted
  rw [if_pos hpaid, hord]
  dsimp only
  rw [hcid]
  dsimp only [recordCouponUsageDb, updateInvoicePaymentStatusDb]
  constructor
  · apply find?_updateFirst_same hord
    simpa using List.find?_some hord
  · exact find?_updateFirst_same hc (by simp)

/-- The Unpaid order holding gateway session "cs_old" (C1 scenario). -/
def exC1order : OrderRec :=
  { orderId := 11
    paymentId := some "cs_old"
    paymentStatus := "Unpaid"
    paymentUrl := some "https://pay.example/x" }

/-- The webhook-reconciler state used by the C1 counterexample: one Unpaid
order holding session "cs_old", its invoice, and the unused FLAT20 coupon
(id 7). -/
def exC1db : DB :=
  { orders := [exC1order]
    invoices := [{ orderId := 11, status := "Unpaid" }]
    coupons := [(7, exFlatCoupon)]
    carts := [] }

/-- The validly-signed paid completed event for session "cs_old", stamped
with coupon 7 and user 3. -/
def exC1session : StripeSession :=
  { id := "cs_old", payment_status := "paid", metadataUserId := 3, metadataCouponId := some 7 }

/-- C1 counterexample: delivering the same paid completed event N = 2 times
increments the coupon's `usedCount` and the user's `usageCount` twice (not
"exactly once"), while the order reads Paid — refuting the claimed
idempotency at N = 2. -/
theorem C1_replay_double_increment_counterexample :
    usedCountOf (deliverN exC1db (StripeEvent.completed exC1session) 2) 7 = some 2 ∧
    couponUserCountOf (deliverN exC1db (StripeEvent.completed exC1session) 2) 7 3 = some 2 ∧
    orderStatusBySession (deliverN exC1db (StripeEvent.completed exC1session) 2) "cs_old" =
      some "Paid" ∧
    (2 : Nat) ≠ 1 := by
  refine ⟨?_, ?_, ?_, by decide⟩ <;> rfl

/-- C1 (amended): for every state holding an order for the event's session
id and the metadata coupon, delivering the validly-signed paid completed
event N times yields N increments of the coupon's `usedCount` and of the
user's `usageCount` — one per delivery, gated only on the event arriving
with a matching session id — and the order's `paymentStatus` equals "Paid"
after every delivery (N ≥ 1). -/
theorem C1_each_delivery_increments_usage (db : DB) (s : StripeSession)
    (ord : OrderRec) (cid : Nat) (c : Coupon) (n : Nat)
    (hord : db.orders.find? (fun o => o.paymentId = some s.id) = some ord)
    (hpaid : s.payment_status = "paid")
    (hcid : s.metadataCouponId = some cid)
    (hc : db.coupons.find? (fun e => e.1 = cid) = some (cid, c)) :
    usedCountOf (deliverN db (StripeEvent.completed s) n) cid = some (c.usedCount + n) ∧
    couponUserCountOf (deliverN db (StripeEvent.completed s) n) cid s.metadataUserId =
      some (userUsageCountOf c s.metadataUserId + n) ∧
    (1 ≤ n → orderStatusBySession (deliverN db (StripeEvent.completed s) n) s.id =
      some "Paid") := by
  induction n generalizing db ord c with
  | zero =>
      refine ⟨?_, ?_, fun hcon => absurd hcon (by omega)⟩
      · unfold deliverN usedCountOf
        rw [hc]
        rfl
      · unfold deliverN couponUserCountOf
        rw [hc]
        rfl
  | succ n ih =>
      have hstep := handleCompleted_step db s ord cid c hord hpaid hcid hc
      have ih2 := ih (handleCompleted db s) { ord with paymentStatus := "Paid" }
        (recordCouponUsage c s.metadataUserId) hstep.1 hstep.2
      have hdel : deliverN db (StripeEvent.completed s) (n + 1) =
          deliverN (handleCompleted db s) (StripeEvent.completed s) n := rfl
      rw [hdel]
      refine ⟨?_, ?_, ?_⟩
      · rw [ih2.1, recordCouponUsage_usedCount]
        congr 1
        omega
      · rw [ih2.2.1, userUsageCountOf_record]
        congr 1
        omega
      · intro _
        rcases Nat.eq_zero_or_pos n with hn0 | hnpos
        · subst hn0
          unfold deliverN orderStatusBySession
          rw [hstep.1]
          rfl
        · exact ih2.2.2 hnpos

/-- C1 witness: the amended theorem applied to the concrete replay state at
N = 2 — two increments and a Paid order. -/
theorem C1_each_delivery_increments_usage_witness :
    usedCountOf (deliverN exC1db (StripeEvent.completed exC1session) 2) 7 =
      some (exFlatCoupon.usedCount + 2) ∧
    couponUserCountOf (deliverN exC1db (StripeEvent.completed exC1session) 2) 7 3 =
      some (userUsageCountOf exFlatCoupon 3 + 2) ∧
    orderStatusBySession (deliverN exC1db (StripeEvent.completed exC1session) 2) "cs_old" =
      some "Paid" := by
  have h := C1_each_delivery_increments_usage exC1db exC1session
    exC1order 7 exFlatCoupon 2 rfl rfl rfl rfl
  exact ⟨h.1, h.2.1, h.2.2 (by omega)⟩

/-!
### C8 — stale session ids are ignored after re-issue
-/

/-- A completed event whose session id matches no order changes nothing. -/
theorem handleCompleted_of_none (db : DB) (s : StripeSession)
    (hnone : db.orders.find? (fun o => o.paymentId = some s.id) = none) :
    handleCompleted db s = db := by
  unfold handleCompleted
  by_cases hp : s.payment_status = "paid"
  · rw [if_pos hp, hnone]
  · rw [if_neg hp]

/-- When a paid completed event finds its order, the Orders collection is
exactly the first-match "set status Paid" update (invoice/coupon writes do
not touch orders). -/
theorem handleCompleted_orders_of_some (db : DB) (s : StripeSession) (x : OrderRec)
    (hp : s.payment_status = "paid")
    (hx : db.orders.find? (fun o => o.paymentId = some s.id) = some x) :
    (handleCompleted db s).orders =
      updateFirst (fun o => o.paymentId = some s.id)
        (fun o => { o with paymentStatus := "Paid" }) db.orders := by
  unfold handleCompleted
  rw [if_pos hp, hx]
  dsimp only
  cases s.metadataCouponId <;> rfl

/-- The Orders collection after an expired event that found its order and a
non-empty cart: first the status reset, then the session-id overwrite. -/
theorem handleExpired_orders (db : DB) (s : StripeSession) (newId newUrl : String)
    (ord : OrderRec) (cart : CartRec)
    (hord : db.orders.find? (fun o => o.paymentId = some s.id) = some ord)
    (hcart : db.carts.find? (fun cr => cr.userId = s.metadataUserId) = some cart)
    (hne : cart.products ≠ []) :
    (handleExpired db s newId newUrl).orders =
      updateFirst (fun o => o.paymentId = some s.id)
        (fun o => { o with paymentUrl := some newUrl, paymentId := some newId })
        (updateFirst (fun o => o.paymentId = some s.id)
          (fun o => { o with paymentStatus := "Unpaid" }) db.orders) := by
  unfold handleExpired
  rw [hord]
  dsimp only [updateInvoicePaymentStatusDb]
  rw [hcart]
  dsimp only
  rw [if_pos (List.length_pos.mpr hne)]

/-- C8: once an expired event re-issues the session (cart non-empty,
session ids unique), any later completed event carrying the OLD session id
is a complete no-op on the database, while a paid completed event carrying
the NEW session id marks the order Paid. -/
theorem C8_stale_session_ignored (db : DB) (s : StripeSession) (newId newUrl : String)
    (ord : OrderRec) (cart : CartRec)
    (hord : db.orders.find? (fun o => o.paymentId = some s.id) = some ord)
    (hcount : db.orders.countP (fun o => o.paymentId = some s.id) = 1)
    (hnew : ∀ o ∈ db.orders, ¬ (o.paymentId = some newId))
    (hcart : db.carts.find? (fun cr => cr.userId = s.metadataUserId) = some cart)
    (hne : cart.products ≠ []) :
    (∀ s1 : StripeSession, s1.id = s.id →
      stripeWebhookEvent (stripeWebhookEvent db (StripeEvent.expired s newId newUrl))
        (StripeEvent.completed s1) =
        stripeWebhookEvent db (StripeEvent.expired s newId newUrl)) ∧
    (∀ s2 : StripeSession, s2.id = newId → s2.payment_status = "paid" →
      orderStatusBySession
        (stripeWebhookEvent (stripeWebhookEvent db (StripeEvent.expired s newId newUrl))
          (StripeEvent.completed s2)) newId = some "Paid") := by
  have hEdef : stripeWebhookEvent db (StripeEvent.expired s newId newUrl) =
      handleExpired db s newId newUrl := rfl
  have hordmem : ord ∈ db.orders := List.mem_of_find?_eq_some hord
  have hordpid : ord.paymentId = some s.id := by simpa using List.find?_some hord
  have hidne : s.id ≠ newId := by
    intro hcon
    exact hnew ord hordmem (by rw [hordpid, hcon])
  have horders := handleExpired_orders db s newId newUrl ord cart hord hcart hne
  have hfind1 : (updateFirst (fun o => o.paymentId = some s.id)
      (fun o => { o with paymentStatus := "Unpaid" }) db.orders).find?
      (fun o => o.paymentId = some s.id) = some { ord with paymentStatus := "Unpaid" } := by
    apply find?_updateFirst_same hord
    simpa using List.find?_some hord
  have hcount1 : (updateFirst (fun o => o.paymentId = some s.id)
      (fun o => { o with paymentStatus := "Unpaid" }) db.orders).countP
      (fun o => o.paymentId = some s.id) = 1 := by
    rw [countP_updateFirst (fun o : OrderRec => decide (o.paymentId = some s.id))
      (fun o => { o with paymentStatus := "Unpaid" }) (fun y => rfl)]
    exact hcount
  have hnone2 : (handleExpired db s newId newUrl).orders.find?
      (fun o => o.paymentId = some s.id) = none := by
    rw [horders]
    exact find?_updateFirst_none hfind1
      (decide_eq_false (fun hcon => hidne (Option.some.inj hcon).symm)) hcount1
  have hfindq : (handleExpired db s newId newUrl).orders.find?
      (fun o => o.paymentId = some newId) =
      some { ord with paymentStatus := "Unpaid", paymentUrl := some newUrl, paymentId := some newId } := by
    rw [horders]
    apply find?_updateFirst_other _ hfind1
    · simp
    · exact forall_updateFirst (fun o : OrderRec => decide (o.paymentId = some s.id))
        (fun o : OrderRec => decide (o.paymentId = some newId))
        (fun o => { o with paymentStatus := "Unpaid" }) (fun y => rfl) db.orders
        (fun y hy => decide_eq_false (hnew y hy))
  constructor
  · intro s1 hs1
    rw [hEdef]
    show handleCompleted (handleExpired db s newId newUrl) s1 =
      handleExpired db s newId newUrl
    apply handleCompleted_of_none
    rw [hs1]
    exact hnone2
  · intro s2 hs2 hp2
    rw [hEdef]
    have hfindq2 : (handleExpired db s newId newUrl).orders.find?
        (fun o => o.paymentId = some s2.id) =
        some { ord with paymentStatus := "Unpaid", paymentUrl := some newUrl, paymentId := some newId } := by
      rw [hs2]
      exact hfindq
    have hco := handleCompleted_orders_of_some (handleExpired db s newId newUrl) s2 _ hp2 hfindq2
    show (((handleCompleted (handleExpired db s newId newUrl) s2).orders.find?
      (fun o => o.paymentId = some newId)).map (fun o => o.paymentStatus)) = some "Paid"
    rw [hco, hs2]
    have hlast : (updateFirst (fun o => o.paymentId = some newId)
        (fun o => { o with paymentStatus := "Paid" })
        (handleExpired db s newId newUrl).orders).find?
        (fun o => o.paymentId = some newId) =
        some { ord with paymentStatus := "Paid", paymentUrl := some newUrl, paymentId := some newId } := by
      apply find?_updateFirst_same hfindq
      simp
    rw [hlast]
    rfl

/-- The Unpaid order holding gateway session "cs_exp" (C8 scenario). -/
def exC8order : OrderRec :=
  { orderId := 21
    paymentId := some "cs_exp"
    paymentStatus := "Unpaid"
    paymentUrl := some "https://pay.example/e" }

/-- User 5's still-populated cart (C8 scenario). -/
def exC8cart : CartRec :=
  { userId := 5
    products := [{ productId := 2, categoryId := 1, quantity := 1, wordCount := 0, totalPrice := 15 }] }

/-- The webhook-reconciler state used by the C8 witness. -/
def exC8db : DB :=
  { orders := [exC8order]
    invoices := [{ orderId := 21, status := "Unpaid" }]
    coupons := []
    carts := [exC8cart] }

/-- The expired event for session "cs_exp" (C8 scenario). -/
def exC8expired : StripeSession :=
  { id := "cs_exp", payment_status := "unpaid", metadataUserId := 5, metadataCouponId := none }

/-- A late paid completed event still carrying the stale id "cs_exp". -/
def exC8staleCompleted : StripeSession :=
  { id := "cs_exp", payment_status := "paid", metadataUserId := 5, metadataCouponId := none }

/-- The paid completed event for the re-issued session "cs_new". -/
def exC8newCompleted : StripeSession :=
  { id := "cs_new", payment_status := "paid", metadataUserId := 5, metadataCouponId := none }

/-- C8 witness: on the concrete state, the stale completion is a no-op and
the new-session completion marks the order Paid. -/
theorem C8_stale_session_ignored_witness :
    stripeWebhookEvent
      (stripeWebhookEvent exC8db (StripeEvent.expired exC8expired "cs_new" "https://pay.example/n"))
      (StripeEvent.completed exC8staleCompleted) =
      stripeWebhookEvent exC8db (StripeEvent.expired exC8expired "cs_new" "https://pay.example/n") ∧
    orderStatusBySession
      (stripeWebhookEvent
        (stripeWebhookEvent exC8db (StripeEvent.expired exC8expired "cs_new" "https://pay.example/n"))
        (StripeEvent.completed exC8newCompleted)) "cs_new" = some "Paid" := by
  have h := C8_stale_session_ignored exC8db exC8expired "cs_new" "https://pay.example/n"
    exC8order exC8cart rfl rfl (by decide) rfl (by decide)
  exact ⟨h.1 exC8staleCompleted rfl, h.2 exC8newCompleted rfl rfl⟩
